import Mathlib

/-!
Verification of the prestapyt web-service client (`prestapyt/prestapyt.py`).

The request/response pipeline is embedded shallowly: the HTTP transport is an
external collaborator, so every client operation is modelled as a pure function
of the server's response (status code, `psws-version` header, body).  Python
exceptions raised by the library are modelled with the `PyErr` type and
`Except`; machine side effects (printing in debug mode) have no observable
counterpart and are dropped, while the in-place mutation of the caller's
options dict by `_options_to_querystring` is made explicit by returning the
updated mapping.
-/

set_option maxRecDepth 4000

/-- The Python exceptions the library can raise.  `PrestaShopAuthenticationError`
subclasses `PrestaShopWebServiceError` in the source; built-in `Exception` and
`KeyError` are outside that hierarchy. -/
inductive PyErr where
  | PrestaShopWebServiceError (msg : String) (error_code : Option Nat)
  | PrestaShopAuthenticationError (msg : String) (error_code : Option Nat)
  | PyException (msg : String)
  | PyKeyError (key : String)
deriving DecidableEq

/-- `isinstance(e, PrestaShopWebServiceError)`: true exactly for the generic
error and its `PrestaShopAuthenticationError` subclass. -/
def isPrestaShopWebServiceError : PyErr → Bool
  | .PrestaShopWebServiceError _ _ => true
  | .PrestaShopAuthenticationError _ _ => true
  | .PyException _ => false
  | .PyKeyError _ => false

/-! ### distutils.version.LooseVersion

`_check_version` compares version strings with `LooseVersion` (Python 2
stdlib): the string is cut into maximal digit runs (converted to `int`),
maximal lowercase-letter runs, and runs of remaining characters, with `.`
dropped; the resulting lists are compared elementwise, an `int` comparing
below any `str` (Python 2 cross-type ordering). -/

inductive LVComp where
  | num (n : Nat)
  | str (s : String)
deriving DecidableEq

/-- Character class used by the `LooseVersion` tokenizer: digits, lowercase
letters, and everything else form separate runs. -/
def lvCharClass (c : Char) : Nat :=
  if c.isDigit then 0 else if c.isLower then 1 else 2

/-- Run currently being accumulated by the tokenizer. -/
inductive LVPartial where
  | empty
  | num (n : Nat)
  | str (cls : Nat) (s : String)

def lvFlush : LVPartial → List LVComp
  | .empty => []
  | .num n => [.num n]
  | .str _ s => [.str s]

def looseParseGo : LVPartial → List Char → List LVComp
  | cur, [] => lvFlush cur
  | cur, c :: rest =>
    if c = '.' then
      lvFlush cur ++ looseParseGo .empty rest
    else if c.isDigit then
      match cur with
      | .num n => looseParseGo (.num (n * 10 + (c.toNat - 48))) rest
      | other => lvFlush other ++ looseParseGo (.num (c.toNat - 48)) rest
    else
      match cur with
      | .str cls s =>
        if cls = lvCharClass c then looseParseGo (.str cls (s.push c)) rest
        else lvFlush (.str cls s) ++ looseParseGo (.str (lvCharClass c) (String.singleton c)) rest
      | other => lvFlush other ++ looseParseGo (.str (lvCharClass c) (String.singleton c)) rest

def looseParse (s : String) : List LVComp :=
  looseParseGo .empty s.data

/-- Python 2 comparison of a single version component: `int` sorts below
`str`, numbers numerically, strings lexicographically. -/
def lvCompLt : LVComp → LVComp → Bool
  | .num a, .num b => decide (a < b)
  | .num _, .str _ => true
  | .str _, .num _ => false
  | .str a, .str b => decide (a < b)

/-- Python 2 list comparison: elementwise, a strict prefix sorting first. -/
def lvListLt : List LVComp → List LVComp → Bool
  | _, [] => false
  | [], _ :: _ => true
  | a :: as, b :: bs => if a = b then lvListLt as bs else lvCompLt a b

/-- `LooseVersion(a) < LooseVersion(b)`. -/
def looseVersionLt (a b : String) : Bool :=
  lvListLt (looseParse a) (looseParse b)

namespace PrestaShopWebService

def MIN_COMPATIBLE_VERSION : String := "1.4.0.17"

def MAX_COMPATIBLE_VERSION : String := "1.4.7.5"

def message_by_code (status_code : Nat) : Option String :=
  if status_code = 204 then some "No content"
  else if status_code = 400 then some "Bad Request"
  else if status_code = 401 then some "Unauthorized"
  else if status_code = 404 then some "Not Found"
  else if status_code = 405 then some "Method Not Allowed"
  else if status_code = 500 then some "Internal Server Error"
  else none

def error_label (status_code : Nat) (reason : String) : String :=
  "This call to PrestaShop Web Services failed and returned an HTTP status of "
    ++ toString status_code ++ ". That means: " ++ reason ++ "."

def unexpected_label (status_code : Nat) : String :=
  "This call to PrestaShop Web Services returned an unexpected HTTP status of: "
    ++ toString status_code

/-- `PrestaShopWebService._check_status_code`. -/
def check_status_code (status_code : Nat) : Except PyErr Bool :=
  if status_code = 200 ∨ status_code = 201 then .ok true
  else if status_code = 401 then
    .error (.PrestaShopAuthenticationError
      (error_label status_code ((message_by_code status_code).getD "")) (some status_code))
  else
    match message_by_code status_code with
    | some reason =>
      .error (.PrestaShopWebServiceError (error_label status_code reason) (some status_code))
    | none =>
      .error (.PrestaShopWebServiceError (unexpected_label status_code) (some status_code))

/-- `PrestaShopWebService._check_version`: `version` is
`header.get('psws-version')`; an absent or empty header is falsy and skips the
check. -/
def check_version (version : Option String) : Except PyErr Bool :=
  match version with
  | none => .ok true
  | some v =>
    if v ≠ "" then
      if !(looseVersionLt MIN_COMPATIBLE_VERSION v && looseVersionLt v MAX_COMPATIBLE_VERSION) then
        .error (.PrestaShopWebServiceError
          ("This library is not compatible with this version of PrestaShop ("
            ++ v ++ "). Please upgrade/downgrade this library") none)
      else .ok true
    else .ok true

end PrestaShopWebService

/-! ### urllib: quote_plus / urlencode (Python 2)

`urllib.urlencode` renders each key/value pair as
`quote_plus(str(k)) + '=' + quote_plus(str(v))` and joins the pairs with `&`.
`quote_plus` keeps letters, digits and `_.-`, turns a space into `+`, and
percent-encodes every other byte as uppercase `%XX`. -/

def isAlwaysSafe (c : Char) : Bool :=
  c.isUpper || c.isLower || c.isDigit || c = '_' || c = '.' || c = '-'

def hexDigit (n : Nat) : Char :=
  if n = 0 then '0' else if n = 1 then '1' else if n = 2 then '2'
  else if n = 3 then '3' else if n = 4 then '4' else if n = 5 then '5'
  else if n = 6 then '6' else if n = 7 then '7' else if n = 8 then '8'
  else if n = 9 then '9' else if n = 10 then 'A' else if n = 11 then 'B'
  else if n = 12 then 'C' else if n = 13 then 'D' else if n = 14 then 'E'
  else 'F'

def quoteByte (n : Nat) : String :=
  "%" ++ String.singleton (hexDigit (n / 16 % 16)) ++ String.singleton (hexDigit (n % 16))

def quote_plus (s : String) : String :=
  String.join (s.data.map fun c =>
    if c = ' ' then "+"
    else if isAlwaysSafe c then String.singleton c
    else quoteByte c.toNat)

def encodePair (p : String × String) : String :=
  quote_plus p.1 ++ "=" ++ quote_plus p.2

def urlencode : List (String × String) → String
  | [] => ""
  | [p] => encodePair p
  | p :: q :: rest => encodePair p ++ "&" ++ urlencode (q :: rest)

/-! ### XML documents and the xml2dict conversion

`ElementTree.fromstring` is an external collaborator; parsed documents are
modelled by `XMLTree` (tag, children, text) and a parsing function is passed
in as a parameter of type `Fromstring`. -/

mutual
inductive XMLTree where
  | elem (tag : String) (children : XMLChildren) (text : String)
inductive XMLChildren where
  | nil
  | cons (hd : XMLTree) (tl : XMLChildren)
end

def XMLTree.tag : XMLTree → String
  | .elem t _ _ => t

/-- Result of `ElementTree.fromstring`: a tree, or the `ExpatError` message. -/
abbrev Fromstring := String → Except String XMLTree

/-- A Python value produced by xml2dict: a nested mapping or a leaf string. -/
inductive DVal where
  | str (s : String)
  | dict (entries : List (String × DVal))

mutual
/-- Modelled from the spec: the xml2dict module is part of this repository but
not under src/; per spec sections 3 and 4.4 the parsed tree is folded into a
nested mapping where element names become keys, element text becomes leaf
values and nested elements become nested trees. -/
def treeToDVal : XMLTree → DVal
  | .elem _ .nil text => .str text
  | .elem _ (.cons c cs) _ => .dict (childEntries (.cons c cs))

/-- Modelled from the spec: children of an element become the entries of its
mapping, in document order. -/
def childEntries : XMLChildren → List (String × DVal)
  | .nil => []
  | .cons c cs => (c.tag, treeToDVal c) :: childEntries cs
end

/-- Modelled from the spec: `xml2dict.ET2dict` wraps the folded document in a
single top-level key named after the root element (spec section 3: "a tree
with a single root label wrapping an ordered set of named child nodes"). -/
def ET2dict (t : XMLTree) : DVal :=
  .dict [(t.tag, treeToDVal t)]

/-- Python dict subscript `d[k]` on a parsed document, `none` when the key is
missing (a `KeyError` at the call site). -/
def dvalGet : DVal → String → Option DVal
  | .str _, _ => none
  | .dict entries, k => entries.lookup k

/-- What `_parse` hands back: an ElementTree in mode `xml`, a nested mapping in
mode `dict`. -/
inductive ParsedContent where
  | xml (t : XMLTree)
  | dict (d : DVal)

/-! ### The service client -/

/-- Python dict `d.update({k: v})`, the mapping modelled as an ordered
association list: an existing key is overwritten, a new key appended. -/
def dictUpdate (d : List (String × String)) (k v : String) : List (String × String) :=
  if (d.map Prod.fst).contains k then
    d.map fun p => if p.1 = k then (p.1, v) else p
  else d ++ [(k, v)]

def dictUpdateAll (d adds : List (String × String)) : List (String × String) :=
  adds.foldl (fun acc p => dictUpdate acc p.1 p.2) d

/-- The HTTP request as handed to `httplib2.Http.request` (the transport
itself, credentials and redirect handling are external collaborators). -/
structure Request where
  url : String
  method : String
  body : Option String
  headers : List (String × String)

/-- The transport's answer: status code, the `psws-version` response header
(absent when the server did not send it) and the raw body. -/
structure HTTPResponse where
  status : Nat
  psws_version : Option String
  body : String

/-- Client configuration fixed by `__init__` (api_key and client_args only
feed the external transport). -/
structure Client where
  api_url : String
  api_key : String
  parse_type : String
  debug : Bool
  headers : List (String × String)

/-- Python `str.endswith`, written over the character list so that it
evaluates inside the kernel. -/
def strEndsWith (s t : String) : Bool :=
  decide (s.data.reverse.take t.data.length = t.data.reverse)

/-- URL normalization in `__init__`: add a trailing slash, then a trailing
`api/`, when missing. -/
def init_api_url (api_url : String) : String :=
  let u := if strEndsWith api_url "/" then api_url else api_url ++ "/"
  if strEndsWith u "/api/" then u else u ++ "api/"

namespace PrestaShopWebService

/-- `PrestaShopWebService._execute`, as a function of the server's response:
builds the request headers, performs the exchange, then checks status and
version.  Debug mode only prints, so the returned request and result do not
mention `c.debug`. -/
def execute (c : Client) (resp : HTTPResponse) (url method : String)
    (body : Option String) (add_headers : List (String × String)) :
    Request × Except PyErr (Nat × HTTPResponse × String) :=
  let request_headers := dictUpdateAll c.headers add_headers
  let req : Request := ⟨url, method, body, request_headers⟩
  (req,
    match check_status_code resp.status with
    | .error e => .error e
    | .ok _ =>
      match check_version resp.psws_version with
      | .error e => .error e
      | .ok _ => .ok (resp.status, resp, resp.body))

/-- `PrestaShopWebService._parse`.  The empty check comes first; then the
requested parse type falls back to the instance default; then the body is
parsed; a type other than `dict` and `xml` raises a bare `Exception`. -/
def parse (fromstring : Fromstring) (self_parse_type : String)
    (content : String) (parse_type : Option String) : Except PyErr ParsedContent :=
  if content = "" then
    .error (.PrestaShopWebServiceError "HTTP response is empty" none)
  else
    let pt := parse_type.getD self_parse_type
    match fromstring content with
    | .error err =>
      .error (.PrestaShopWebServiceError ("HTTP XML response is not parsable : " ++ err) none)
    | .ok parsed_content =>
      if pt = "dict" then .ok (.dict (ET2dict parsed_content))
      else if pt ≠ "xml" then
        .error (.PyException ("Code error. Parse type " ++ pt ++ " not supported!"))
      else .ok (.xml parsed_content)

def supported_params : List String := ["filter", "display", "sort", "limit", "schema"]

/-- `param.split('[')[0]`: the text before the first opening bracket. -/
def preBracket (param : String) : String :=
  String.mk (param.data.takeWhile fun c => c ≠ '[')

/-- Python `set(...)`: deduplicated elements (membership is what matters; the
iteration order of a CPython set is unspecified). -/
def pyset : List String → List String
  | [] => []
  | a :: t => if a ∈ pyset t then pyset t else a :: pyset t

/-- `set(prefixes).difference(supported)` in `_validate`. -/
def unsupportedOf (keys : List String) : List String :=
  (pyset (keys.map preBracket)).filter fun x => decide (x ∉ supported_params)

/-- `PrestaShopWebService._validate`, applied to the keys of the options dict
(the isinstance check is subsumed by typing). -/
def validate (keys : List String) : Except PyErr Bool :=
  if unsupportedOf keys = [] then .ok true
  else
    .error (.PrestaShopWebServiceError
      ("Unsupported parameters: " ++ String.intercalate ", " (unsupportedOf keys)) none)

/-- `PrestaShopWebService._options_to_querystring`: in debug mode
`options.update({'debug': True})` mutates the caller's dict before encoding;
the updated mapping is returned alongside the query string to make that
mutation observable. -/
def options_to_querystring (debug : Bool) (options : List (String × String)) :
    String × List (String × String) :=
  let options := if debug then dictUpdate options "debug" "True" else options
  (urlencode options, options)

/-- `PrestaShopWebService.add_with_url`: POST with a form-url-encoded body
carrying the XML in a single `xml` field. -/
def add_with_url (c : Client) (fromstring : Fromstring) (resp : HTTPResponse)
    (url xml : String) : Request × Except PyErr ParsedContent :=
  let headers := [("Content-Type", "application/x-www-form-urlencoded")]
  let er := execute c resp url "POST" (some (urlencode [("xml", xml)])) headers
  (er.1,
    match er.2 with
    | .error e => .error e
    | .ok (_, _, content) => parse fromstring c.parse_type content none)

/-- Modelled from the spec: the helper module `unicode_encode` is part of this
repository but not under src/; it encodes the XML text as UTF-8 bytes for the
wire (spec section 6: bodies are UTF-8), which at the level of textual content
is the identity. -/
def unicode_encode (text : String) : String := text

/-- `PrestaShopWebService.edit_with_url`: PUT whose body is the
unicode-encoded XML itself (not form-encoded), though the Content-Type header
still declares form encoding. -/
def edit_with_url (c : Client) (fromstring : Fromstring) (resp : HTTPResponse)
    (url xml : String) : Request × Except PyErr ParsedContent :=
  let headers := [("Content-Type", "application/x-www-form-urlencoded")]
  let er := execute c resp url "PUT" (some (unicode_encode xml)) headers
  (er.1,
    match er.2 with
    | .error e => .error e
    | .ok (_, _, content) => parse fromstring c.parse_type content none)

/-- `PrestaShopWebService.get_with_url`: GET, parse, and—despite its docstring
promising the full document—strip the `prestashop` root whenever the parsed
response is a dict. -/
def get_with_url (c : Client) (fromstring : Fromstring) (resp : HTTPResponse)
    (url : String) (parse_type : Option String) : Request × Except PyErr ParsedContent :=
  let er := execute c resp url "GET" none []
  (er.1,
    match er.2 with
    | .error e => .error e
    | .ok (_, _, content) =>
      match parse fromstring c.parse_type content parse_type with
      | .error e => .error e
      | .ok (.dict d) =>
        match dvalGet d "prestashop" with
        | some v => .ok (.dict v)
        | none => .error (.PyKeyError "prestashop")
      | .ok (.xml t) => .ok (.xml t))

/-- `PrestaShopWebService.get`: build the name-addressed URL (validating the
options when given) and delegate to `get_with_url`. -/
def get (c : Client) (fromstring : Fromstring) (resp : HTTPResponse)
    (resource : String) (resource_id : Option String)
    (options : Option (List (String × String))) (parse_type : Option String) :
    Except PyErr ParsedContent :=
  let full_url := c.api_url ++ resource
  let full_url :=
    match resource_id with
    | some i => full_url ++ "/" ++ i
    | none => full_url
  match options with
  | none => (get_with_url c fromstring resp full_url parse_type).2
  | some opts =>
    match validate (opts.map Prod.fst) with
    | .error e => .error e
    | .ok _ =>
      let full_url := full_url ++ "?" ++ (options_to_querystring c.debug opts).1
      (get_with_url c fromstring resp full_url parse_type).2

/-- `PrestaShopWebService.head_with_url`: HEAD, returning only the response
header. -/
def head_with_url (c : Client) (resp : HTTPResponse) (url : String) :
    Request × Except PyErr HTTPResponse :=
  let er := execute c resp url "HEAD" none []
  (er.1,
    match er.2 with
    | .error e => .error e
    | .ok (_, hdr, _) => .ok hdr)

/-- `PrestaShopWebService.delete_with_url`: DELETE; `True` unless the executor
raised. -/
def delete_with_url (c : Client) (resp : HTTPResponse) (url : String) :
    Request × Except PyErr Bool :=
  let er := execute c resp url "DELETE" none []
  (er.1,
    match er.2 with
    | .error e => .error e
    | .ok _ => .ok true)

/-- `ids` argument of `delete`: a single id or a tuple/list of ids. -/
inductive ResourceIds where
  | one (id : Nat)
  | many (ids : List Nat)

/-- `PrestaShopWebService.delete`: a collection of ids becomes one batch URL
`.../?id=[id1,...,idn]`, a scalar id is appended as a path segment. -/
def delete (c : Client) (resp : HTTPResponse) (resource : String)
    (resource_ids : ResourceIds) : Request × Except PyErr Bool :=
  let full_url := c.api_url ++ resource
  let full_url :=
    match resource_ids with
    | .many l => full_url ++ "/?id=[" ++ String.intercalate "," (l.map toString) ++ "]"
    | .one i => full_url ++ "/" ++ toString i
  delete_with_url c resp full_url

end PrestaShopWebService

/-! ### Concrete data used by counterexamples and witnesses -/

def addressTree : XMLTree :=
  .elem "prestashop"
    (.cons (.elem "address"
      (.cons (.elem "id" .nil "1") (.cons (.elem "firstname" .nil "John") .nil)) "") .nil) ""

def addressXml : String :=
  "<prestashop><address><id>1</id><firstname>John</firstname></address></prestashop>"

/-- A parser behaving like `ElementTree.fromstring` on the one document the
concrete scenarios use. -/
def addressParse : Fromstring :=
  fun s => if s = addressXml then .ok addressTree else .error "syntax error: line 1, column 0"

/-- A parser that accepts anything, standing in for `ElementTree.fromstring`
on well-formed input. -/
def sampleOkParse : Fromstring :=
  fun _ => .ok (XMLTree.elem "a" .nil "")

def sampleResp : HTTPResponse :=
  { status := 200, psws_version := none, body := addressXml }

def resp202 : HTTPResponse :=
  { status := 202, psws_version := none, body := "" }

def dictClient : Client :=
  { api_url := init_api_url "http://localhost:8080/api"
    api_key := "BVWPFFYBT97WKM959D7AVVD0M4815Y1L"
    parse_type := "dict"
    debug := false
    headers := [("User-agent", "Prestapyt: Python Prestashop Library")] }

/-! ## Helper lemmas -/

theorem mem_pyset {l : List String} : ∀ {x : String},
    x ∈ PrestaShopWebService.pyset l ↔ x ∈ l := by
  induction l with
  | nil => intro x; simp [PrestaShopWebService.pyset]
  | cons a t ih =>
    intro x
    have hdef : PrestaShopWebService.pyset (a :: t)
        = if a ∈ PrestaShopWebService.pyset t then PrestaShopWebService.pyset t
          else a :: PrestaShopWebService.pyset t := rfl
    by_cases h : a ∈ PrestaShopWebService.pyset t
    · have ha : a ∈ t := ih.mp h
      rw [hdef, if_pos h, ih]
      constructor
      · exact fun hx => List.mem_cons_of_mem a hx
      · intro hx
        rcases List.mem_cons.mp hx with rfl | hx2
        · exact ha
        · exact hx2
    · rw [hdef, if_neg h]
      simp only [List.mem_cons, ih]

theorem urlencode_append_single (l : List (String × String)) (p : String × String) :
    (urlencode (l ++ [p])).length
      = (urlencode l).length + (encodePair p).length + (if l.isEmpty then 0 else 1) := by
  induction l with
  | nil => simp [urlencode]
  | cons q t ih =>
    cases t with
    | nil =>
      show (encodePair q ++ "&" ++ encodePair p).length = _
      simp [urlencode, String.length_append]
      have h3 : "&".length = 1 := rfl
      omega
    | cons r s =>
      rw [show (q :: r :: s) ++ [p] = q :: ((r :: s) ++ [p]) from rfl]
      rw [show urlencode (q :: ((r :: s) ++ [p]))
            = encodePair q ++ "&" ++ urlencode ((r :: s) ++ [p]) from rfl]
      rw [show urlencode (q :: r :: s) = encodePair q ++ "&" ++ urlencode (r :: s) from rfl]
      simp only [String.length_append, List.isEmpty_cons] at ih ⊢
      omega

theorem urlencode_snoc_ne (l : List (String × String)) (p : String × String)
    (hp : 0 < (encodePair p).length) : urlencode (l ++ [p]) ≠ urlencode l := by
  intro h
  have hl := congrArg String.length h
  rw [urlencode_append_single] at hl
  split at hl <;> omega

/-! ## The claims -/

/-- Claim C1: the claim (and the docstring of `get_with_url`) says that the
URL-addressed GET keeps the `prestashop` root in dict mode, while the
name-addressed `get` strips it.  The code strips the root inside
`get_with_url` itself, so both calls return a mapping whose top-level key is
`address`: the asymmetry does not exist.  This theorem evaluates both calls on
the failing input. -/
theorem C1_get_with_url_strips_root :
    PrestaShopWebService.get dictClient addressParse sampleResp "addresses" (some "1") none none
      = .ok (.dict (.dict [("address", .dict [("id", .str "1"), ("firstname", .str "John")])]))
  ∧ (PrestaShopWebService.get_with_url dictClient addressParse sampleResp
        (dictClient.api_url ++ "addresses/1") none).2
      = .ok (.dict (.dict [("address", .dict [("id", .str "1"), ("firstname", .str "John")])])) :=
  ⟨rfl, rfl⟩

/-- Claim C2, counterexample: for the XML payload `<a/>` the POST body of
`add_with_url` is the form-encoded `xml=%3Ca%2F%3E` while the PUT body of
`edit_with_url` is the raw `<a/>`, so the two bodies are not equal. -/
theorem C2_edit_body_counterexample :
    (PrestaShopWebService.edit_with_url dictClient addressParse sampleResp
        "http://localhost:8080/api/addresses/1" "<a/>").1.body
      ≠ (PrestaShopWebService.add_with_url dictClient addressParse sampleResp
        "http://localhost:8080/api/addresses/1" "<a/>").1.body
  ∧ (PrestaShopWebService.add_with_url dictClient addressParse sampleResp
        "http://localhost:8080/api/addresses/1" "<a/>").1.body = some "xml=%3Ca%2F%3E"
  ∧ (PrestaShopWebService.edit_with_url dictClient addressParse sampleResp
        "http://localhost:8080/api/addresses/1" "<a/>").1.body = some "<a/>" :=
  ⟨by decide, rfl, rfl⟩

/-- Claim C2, amended: `add_with_url` sends the form-url-encoded body
`xml=<quoted payload>`, while `edit_with_url` sends the unicode-encoded XML
payload itself as the body; both declare the form-url-encoded Content-Type. -/
theorem C2_edit_body_amended (url xml : String) :
    (PrestaShopWebService.add_with_url dictClient addressParse sampleResp url xml).1.body
      = some ("xml=" ++ quote_plus xml)
  ∧ (PrestaShopWebService.edit_with_url dictClient addressParse sampleResp url xml).1.body
      = some (PrestaShopWebService.unicode_encode xml)
  ∧ ("Content-Type", "application/x-www-form-urlencoded")
      ∈ (PrestaShopWebService.add_with_url dictClient addressParse sampleResp url xml).1.headers
  ∧ ("Content-Type", "application/x-www-form-urlencoded")
      ∈ (PrestaShopWebService.edit_with_url dictClient addressParse sampleResp url xml).1.headers := by
  refine ⟨rfl, rfl, ?_, ?_⟩ <;>
  · show ("Content-Type", "application/x-www-form-urlencoded")
        ∈ [("User-agent", "Prestapyt: Python Prestashop Library"),
           ("Content-Type", "application/x-www-form-urlencoded")]
    simp

/-- Claim C3, counterexample: with the options mapping `{'limit': '5'}`,
enabling debug changes the query string (it gains `debug=True`) and mutates
the caller's mapping, so debug is not free of behavioral effect. -/
theorem C3_debug_counterexample :
    (PrestaShopWebService.options_to_querystring true [("limit", "5")]).1
      ≠ (PrestaShopWebService.options_to_querystring false [("limit", "5")]).1
  ∧ (PrestaShopWebService.options_to_querystring true [("limit", "5")]).2 ≠ [("limit", "5")] :=
  ⟨by decide, by decide⟩

/-- Claim C3, amended: `_execute` builds an identical request and result
whether or not debug is enabled, but `_options_to_querystring` in debug mode
appends a `debug: True` entry to the caller's options mapping (mutating it)
and therefore produces a different query string whenever options are passed. -/
theorem C3_debug_observable :
    (∀ (c : Client) (resp : HTTPResponse) (url method : String) (body : Option String)
        (add_headers : List (String × String)),
        PrestaShopWebService.execute { c with debug := true } resp url method body add_headers
          = PrestaShopWebService.execute { c with debug := false } resp url method body add_headers)
  ∧ ∀ opts : List (String × String), (opts.map Prod.fst).contains "debug" = false →
      (PrestaShopWebService.options_to_querystring true opts).2 = opts ++ [("debug", "True")]
      ∧ (PrestaShopWebService.options_to_querystring true opts).1
          ≠ (PrestaShopWebService.options_to_querystring false opts).1
      ∧ (PrestaShopWebService.options_to_querystring true opts).2 ≠ opts := by
  constructor
  · intro c resp url method body add_headers
    rfl
  · intro opts h
    have hupd : dictUpdate opts "debug" "True" = opts ++ [("debug", "True")] := by
      unfold dictUpdate
      rw [h]
      rfl
    refine ⟨by simp [PrestaShopWebService.options_to_querystring, hupd], ?_, ?_⟩
    · have h1 : (PrestaShopWebService.options_to_querystring true opts).1
          = urlencode (opts ++ [("debug", "True")]) := by
        simp [PrestaShopWebService.options_to_querystring, hupd]
      rw [h1]
      exact urlencode_snoc_ne opts _ (by decide)
    · have h2 : (PrestaShopWebService.options_to_querystring true opts).2
          = opts ++ [("debug", "True")] := by
        simp [PrestaShopWebService.options_to_querystring, hupd]
      rw [h2]
      intro hh
      simpa using congrArg List.length hh

/-- Witness for C3: the amended statement applied to the mapping
`{'limit': '5'}`. -/
theorem C3_debug_observable_witness :
    (PrestaShopWebService.options_to_querystring true [("limit", "5")]).2
      = [("limit", "5")] ++ [("debug", "True")] :=
  (C3_debug_observable.2 [("limit", "5")] (by decide)).1

/-- Claim C4: 200 and 201 succeed; 401 raises the authentication error with
the code attached; 204/400/404/405/500 raise the generic error with the
documented reason and the code; every other non-2xx status raises the generic
unexpected-status error with the code. -/
theorem C4_check_status_code :
    PrestaShopWebService.check_status_code 200 = .ok true
  ∧ PrestaShopWebService.check_status_code 201 = .ok true
  ∧ PrestaShopWebService.check_status_code 401
      = .error (.PrestaShopAuthenticationError
          (PrestaShopWebService.error_label 401 "Unauthorized") (some 401))
  ∧ PrestaShopWebService.check_status_code 204
      = .error (.PrestaShopWebServiceError
          (PrestaShopWebService.error_label 204 "No content") (some 204))
  ∧ PrestaShopWebService.check_status_code 400
      = .error (.PrestaShopWebServiceError
          (PrestaShopWebService.error_label 400 "Bad Request") (some 400))
  ∧ PrestaShopWebService.check_status_code 404
      = .error (.PrestaShopWebServiceError
          (PrestaShopWebService.error_label 404 "Not Found") (some 404))
  ∧ PrestaShopWebService.check_status_code 405
      = .error (.PrestaShopWebServiceError
          (PrestaShopWebService.error_label 405 "Method Not Allowed") (some 405))
  ∧ PrestaShopWebService.check_status_code 500
      = .error (.PrestaShopWebServiceError
          (PrestaShopWebService.error_label 500 "Internal Server Error") (some 500))
  ∧ ∀ s : Nat, (s < 200 ∨ 299 < s) → s ≠ 204 → s ≠ 400 → s ≠ 401 → s ≠ 404 → s ≠ 405 → s ≠ 500 →
      PrestaShopWebService.check_status_code s
        = .error (.PrestaShopWebServiceError (PrestaShopWebService.unexpected_label s) (some s)) := by
  refine ⟨rfl, rfl, rfl, rfl, rfl, rfl, rfl, rfl, ?_⟩
  intro s hrange h204 h400 h401 h404 h405 h500
  have h200 : s ≠ 200 := by omega
  have h201 : s ≠ 201 := by omega
  simp [PrestaShopWebService.check_status_code, PrestaShopWebService.message_by_code,
    h200, h201, h204, h400, h401, h404, h405, h500]

/-- Witness for C4: the teapot status 418 raises the unexpected-status error. -/
theorem C4_check_status_code_witness :
    PrestaShopWebService.check_status_code 418
      = .error (.PrestaShopWebServiceError
          (PrestaShopWebService.unexpected_label 418) (some 418)) :=
  C4_check_status_code.2.2.2.2.2.2.2.2 418 (Or.inr (by decide)) (by decide) (by decide)
    (by decide) (by decide) (by decide) (by decide)

/-- Claim C5: the version check has exclusive bounds under loose version
ordering: the exact minimum `1.4.0.17` and the exact maximum `1.4.7.5` raise,
any version strictly between the bounds passes, and an absent or empty header
skips the check. -/
theorem C5_check_version :
    PrestaShopWebService.check_version none = .ok true
  ∧ PrestaShopWebService.check_version (some "") = .ok true
  ∧ PrestaShopWebService.check_version (some "1.4.0.17")
      = .error (.PrestaShopWebServiceError
          ("This library is not compatible with this version of PrestaShop ("
            ++ "1.4.0.17" ++ "). Please upgrade/downgrade this library") none)
  ∧ PrestaShopWebService.check_version (some "1.4.7.5")
      = .error (.PrestaShopWebServiceError
          ("This library is not compatible with this version of PrestaShop ("
            ++ "1.4.7.5" ++ "). Please upgrade/downgrade this library") none)
  ∧ ∀ v : String, looseVersionLt PrestaShopWebService.MIN_COMPATIBLE_VERSION v = true →
      looseVersionLt v PrestaShopWebService.MAX_COMPATIBLE_VERSION = true →
      PrestaShopWebService.check_version (some v) = .ok true := by
  refine ⟨rfl, rfl, rfl, rfl, ?_⟩
  intro v h1 h2
  by_cases hv : v = ""
  · subst hv
    exact absurd h1 (by decide)
  · simp [PrestaShopWebService.check_version, hv, h1, h2]

/-- Witness for C5: the version 1.4.3 lies strictly between the bounds and
passes the check. -/
theorem C5_check_version_witness :
    PrestaShopWebService.check_version (some "1.4.3") = .ok true :=
  C5_check_version.2.2.2.2 "1.4.3" (by decide) (by decide)

/-- Claim C6: validation succeeds when every key's pre-bracket prefix lies in
the allow-list; otherwise it fails with a message listing the offending
prefixes, and the list names every offending key's prefix, not just the
first. -/
theorem C6_validate (keys : List String) :
    ((∀ k ∈ keys, PrestaShopWebService.preBracket k ∈ PrestaShopWebService.supported_params) →
      PrestaShopWebService.validate keys = .ok true)
  ∧ ∀ k ∈ keys, PrestaShopWebService.preBracket k ∉ PrestaShopWebService.supported_params →
      (PrestaShopWebService.validate keys
        = .error (.PrestaShopWebServiceError
            ("Unsupported parameters: "
              ++ String.intercalate ", " (PrestaShopWebService.unsupportedOf keys)) none)
      ∧ ∀ k2 ∈ keys, PrestaShopWebService.preBracket k2 ∉ PrestaShopWebService.supported_params →
          PrestaShopWebService.preBracket k2 ∈ PrestaShopWebService.unsupportedOf keys) := by
  constructor
  · intro hall
    have hempty : PrestaShopWebService.unsupportedOf keys = [] := by
      unfold PrestaShopWebService.unsupportedOf
      refine List.filter_eq_nil_iff.mpr ?_
      intro x hx
      obtain ⟨k, hk, rfl⟩ := List.mem_map.mp (mem_pyset.mp hx)
      simpa using hall k hk
    simp [PrestaShopWebService.validate, hempty]
  · intro k hk hbad
    have hmem : ∀ k2 ∈ keys,
        PrestaShopWebService.preBracket k2 ∉ PrestaShopWebService.supported_params →
        PrestaShopWebService.preBracket k2 ∈ PrestaShopWebService.unsupportedOf keys := by
      intro k2 hk2 hbad2
      unfold PrestaShopWebService.unsupportedOf
      exact List.mem_filter.mpr
        ⟨mem_pyset.mpr (List.mem_map_of_mem _ hk2), by simpa using hbad2⟩
    have hne : PrestaShopWebService.unsupportedOf keys ≠ [] := by
      intro h0
      have hx := hmem k hk hbad
      rw [h0] at hx
      exact absurd hx (List.not_mem_nil _)
    exact ⟨by simp [PrestaShopWebService.validate, hne], hmem⟩

/-- Witness for C6: `{'filter[id]', 'limit'}` validates; in
`{'bogus', 'sort', 'junk[x]'}` the prefix of the offending key `junk[x]` is
listed even though `bogus` also offends. -/
theorem C6_validate_witness :
    PrestaShopWebService.validate ["filter[id]", "limit"] = .ok true
  ∧ PrestaShopWebService.preBracket "junk[x]"
      ∈ PrestaShopWebService.unsupportedOf ["bogus", "sort", "junk[x]"] :=
  ⟨(C6_validate ["filter[id]", "limit"]).1 (by decide),
   ((C6_validate ["bogus", "sort", "junk[x]"]).2 "bogus" (by decide) (by decide)).2
     "junk[x]" (by decide) (by decide)⟩

/-- Claim C7: an empty response body raises the `HTTP response is empty`
service error for every requested parse mode and every parser, before any XML
parsing is attempted. -/
theorem C7_empty_response (fromstring : Fromstring) (self_parse_type : String)
    (parse_type : Option String) :
    PrestaShopWebService.parse fromstring self_parse_type "" parse_type
      = .error (.PrestaShopWebServiceError "HTTP response is empty" none) := rfl

/-- Claim C8, counterexample: requesting the unsupported parse mode `json`
raises a bare `Exception`, which is not an instance of
`PrestaShopWebServiceError`. -/
theorem C8_parse_type_counterexample :
    PrestaShopWebService.parse sampleOkParse "xml" "<a/>" (some "json")
      = .error (.PyException "Code error. Parse type json not supported!")
  ∧ isPrestaShopWebServiceError
      (.PyException "Code error. Parse type json not supported!") = false :=
  ⟨rfl, rfl⟩

/-- Claim C8, amended: on a non-empty well-formed body, requesting a parse
mode that is neither `dict` nor `xml` raises the plain untyped `Exception`
`Code error. Parse type ... not supported!`, which lies outside the
`PrestaShopWebServiceError` taxonomy. -/
theorem C8_parse_type_amended (fromstring : Fromstring) (self_parse_type content pt : String)
    (t : XMLTree) (hc : content ≠ "") (hf : fromstring content = .ok t)
    (hd : pt ≠ "dict") (hx : pt ≠ "xml") :
    PrestaShopWebService.parse fromstring self_parse_type content (some pt)
      = .error (.PyException ("Code error. Parse type " ++ pt ++ " not supported!"))
    ∧ isPrestaShopWebServiceError
        (.PyException ("Code error. Parse type " ++ pt ++ " not supported!")) = false := by
  refine ⟨?_, rfl⟩
  simp [PrestaShopWebService.parse, hc, hf, hd, hx]

/-- Witness for C8: the amended statement applied to mode `json` on body
`<a/>`. -/
theorem C8_parse_type_witness :
    PrestaShopWebService.parse sampleOkParse "dict" "<a/>" (some "json")
      = .error (.PyException ("Code error. Parse type " ++ "json" ++ " not supported!")) :=
  (C8_parse_type_amended sampleOkParse "dict" "<a/>" "json"
    (XMLTree.elem "a" XMLChildren.nil "") (by decide) rfl (by decide) (by decide)).1

/-- Claim C9: a collection of ids yields the single batch URL
`<base>/<resource>/?id=[id1,...,idn]`, a scalar id yields
`<base>/<resource>/<id>`; both issue one DELETE request, and the call returns
`true` whenever the executor does not raise. -/
theorem C9_delete_urls (c : Client) (resp : HTTPResponse) (resource : String) :
    (∀ ids : List Nat,
        (PrestaShopWebService.delete c resp resource (.many ids)).1.url
          = c.api_url ++ resource ++ "/?id=["
            ++ String.intercalate "," (ids.map toString) ++ "]"
        ∧ (PrestaShopWebService.delete c resp resource (.many ids)).1.method = "DELETE")
  ∧ (∀ i : Nat,
        (PrestaShopWebService.delete c resp resource (.one i)).1.url
          = c.api_url ++ resource ++ "/" ++ toString i
        ∧ (PrestaShopWebService.delete c resp resource (.one i)).1.method = "DELETE")
  ∧ ∀ (url : String) (v : Nat × HTTPResponse × String),
      (PrestaShopWebService.execute c resp url "DELETE" none []).2 = .ok v →
      (PrestaShopWebService.delete_with_url c resp url).2 = .ok true := by
  refine ⟨fun ids => ⟨rfl, rfl⟩, fun i => ⟨rfl, rfl⟩, ?_⟩
  intro url v h
  simp only [PrestaShopWebService.delete_with_url]
  rw [h]

/-- Witness for C9: the batch URL for ids [1,2,3] and a successful scalar
delete. -/
theorem C9_delete_urls_witness :
    (PrestaShopWebService.delete dictClient sampleResp "addresses" (.many [1, 2, 3])).1.url
      = dictClient.api_url ++ "addresses" ++ "/?id=["
        ++ String.intercalate "," ([1, 2, 3].map toString) ++ "]"
  ∧ (PrestaShopWebService.delete_with_url dictClient sampleResp
        "http://localhost:8080/api/addresses/5").2 = .ok true :=
  ⟨((C9_delete_urls dictClient sampleResp "addresses").1 [1, 2, 3]).1,
   (C9_delete_urls dictClient sampleResp "addresses").2.2
     "http://localhost:8080/api/addresses/5" (200, sampleResp, sampleResp.body) rfl⟩

/-- Claim C10: the status check raises for every status other than exactly
200 and 201; in particular the 2xx status 202 raises the unexpected-status
error, and the check runs on DELETE and HEAD requests too. -/
theorem C10_strict_success_codes :
    (∀ s : Nat, s ≠ 200 → s ≠ 201 →
        ∃ e, PrestaShopWebService.check_status_code s = .error e)
  ∧ PrestaShopWebService.check_status_code 202
      = .error (.PrestaShopWebServiceError
          (PrestaShopWebService.unexpected_label 202) (some 202))
  ∧ (∀ (c : Client) (resp : HTTPResponse) (url : String), resp.status = 202 →
      (PrestaShopWebService.delete_with_url c resp url).2
        = .error (.PrestaShopWebServiceError
            (PrestaShopWebService.unexpected_label 202) (some 202)))
  ∧ ∀ (c : Client) (resp : HTTPResponse) (url : String), resp.status = 202 →
      (PrestaShopWebService.head_with_url c resp url).2
        = .error (.PrestaShopWebServiceError
            (PrestaShopWebService.unexpected_label 202) (some 202)) := by
  refine ⟨?_, rfl, ?_, ?_⟩
  · intro s h200 h201
    have hor : ¬(s = 200 ∨ s = 201) := by simp [h200, h201]
    unfold PrestaShopWebService.check_status_code
    rw [if_neg hor]
    split
    · exact ⟨_, rfl⟩
    · split
      · exact ⟨_, rfl⟩
      · exact ⟨_, rfl⟩
  · intro c resp url h
    simp only [PrestaShopWebService.delete_with_url, PrestaShopWebService.execute, h]
    rfl
  · intro c resp url h
    simp only [PrestaShopWebService.head_with_url, PrestaShopWebService.execute, h]
    rfl

/-- Witness for C10: status 418 raises, and a DELETE seeing status 202
raises the unexpected-status error. -/
theorem C10_strict_success_codes_witness :
    (∃ e, PrestaShopWebService.check_status_code 418 = .error e)
  ∧ (PrestaShopWebService.delete_with_url dictClient resp202
        "http://localhost:8080/api/x/1").2
      = .error (.PrestaShopWebServiceError
          (PrestaShopWebService.unexpected_label 202) (some 202)) :=
  ⟨C10_strict_success_codes.1 418 (by decide) (by decide),
   C10_strict_success_codes.2.2.1 dictClient resp202 "http://localhost:8080/api/x/1" rfl⟩
